import Mathlib

/-!
Shallow embedding of the `rusty_winapi` library (a safety layer over the
Windows OLE automation ABI) and verification of its specification claims.

Modelling conventions:
* machine integers are `Nat`/`Int` (i16/i32 payloads as `Int`, unsigned as `Nat`);
* `f32`/`f64` payloads are carried as their bit patterns (`Nat`): the code only
  stores and re-reads them, no arithmetic is performed;
* raw pointers are `Nat` addresses with `0` as the null pointer (or `Int`
  addresses where pointer arithmetic matters, as in the BSTR overlap check);
* foreign (ABI) calls are oracles passed in as parameters, so that the Rust
  wrapper logic - which is what the claims are about - is embedded exactly;
* an allocated BSTR is modelled by the list of UTF-16 code units the foreign
  allocator copied into its buffer (its out-of-band length is the list length);
* a Rust `panic!`/`unwrap` failure is modelled by `Option.none`.
-/

namespace RustyWinapi

/-! ### UTF-16 encoding and lossy decoding

Models Rust's `str::encode_utf16` and `String::from_utf16_lossy`, which the
library uses at the BSTR boundary (`AutoBSTR::try_from<&str>` and
`String::from(AutoBSTR)`). Code units are `Nat` (each `< 2^16`).
-/

/-- UTF-16 encoding of one unicode scalar value, as in Rust's `char::encode_utf16`:
one code unit below `0x10000`, otherwise a surrogate pair. -/
def encodeCharUtf16 (c : Char) : List Nat :=
  let v := c.toNat
  if v < 0x10000 then [v]
  else [0xD800 + (v - 0x10000) / 0x400, 0xDC00 + (v - 0x10000) % 0x400]

/-- UTF-16 encoding of a whole string (`str::encode_utf16().collect()`). -/
def utf16Encode (s : String) : List Nat :=
  s.data.flatMap encodeCharUtf16

/-- U+FFFD REPLACEMENT CHARACTER, substituted for unpaired surrogates. -/
def replacementChar : Char := Char.ofNat 0xFFFD

/-- Lossy UTF-16 decoding as in Rust's `String::from_utf16_lossy`: a high
surrogate followed by a low surrogate combines into one scalar value; an
unpaired surrogate becomes U+FFFD and decoding continues with the next unit. -/
def utf16DecodeLossy : List Nat → List Char
  | [] => []
  | [u] =>
    if 0xD800 ≤ u ∧ u ≤ 0xDFFF then [replacementChar] else [Char.ofNat u]
  | u :: u2 :: rest =>
    if 0xD800 ≤ u ∧ u ≤ 0xDBFF then
      if 0xDC00 ≤ u2 ∧ u2 ≤ 0xDFFF then
        Char.ofNat (0x10000 + (u - 0xD800) * 0x400 + (u2 - 0xDC00)) :: utf16DecodeLossy rest
      else
        replacementChar :: utf16DecodeLossy (u2 :: rest)
    else if 0xDC00 ≤ u ∧ u ≤ 0xDFFF then
      replacementChar :: utf16DecodeLossy (u2 :: rest)
    else
      Char.ofNat u :: utf16DecodeLossy (u2 :: rest)

/-- Model of `String::from_utf16_lossy` on a code-unit buffer. -/
def from_utf16_lossy (units : List Nat) : String :=
  String.mk (utf16DecodeLossy units)

/-- Decoding the UTF-16 encoding of one character, followed by any tail,
recovers the character: scalar values are never surrogates, and a generated
surrogate pair recombines to the original value. -/
theorem utf16DecodeLossy_encode_append (c : Char) (rest : List Nat) :
    utf16DecodeLossy (encodeCharUtf16 c ++ rest) = c :: utf16DecodeLossy rest := by
  have hv : c.toNat < 0xd800 ∨ (0xdfff < c.toNat ∧ c.toNat < 0x110000) := c.valid
  by_cases hsmall : c.toNat < 0x10000
  · have henc : encodeCharUtf16 c = [c.toNat] := by
      simp [encodeCharUtf16, hsmall]
    rw [henc]
    cases rest with
    | nil =>
      simp only [List.cons_append, List.nil_append, utf16DecodeLossy]
      rw [if_neg (by omega), Char.ofNat_toNat]
    | cons r rs =>
      simp only [List.cons_append, List.nil_append, utf16DecodeLossy]
      rw [if_neg (by omega), if_neg (by omega), Char.ofNat_toNat]
  · have henc : encodeCharUtf16 c =
        [0xD800 + (c.toNat - 0x10000) / 0x400, 0xDC00 + (c.toNat - 0x10000) % 0x400] := by
      simp [encodeCharUtf16, hsmall]
    rw [henc]
    simp only [List.cons_append, List.nil_append, utf16DecodeLossy]
    rw [if_pos (by omega)]
    rw [if_pos (by omega)]
    have hval : 0x10000 + (0xD800 + (c.toNat - 0x10000) / 0x400 - 0xD800) * 0x400 +
        (0xDC00 + (c.toNat - 0x10000) % 0x400 - 0xDC00) = c.toNat := by omega
    rw [hval, Char.ofNat_toNat]
    rfl

/-- Lossy UTF-16 decode is a left inverse of UTF-16 encode. -/
theorem from_utf16_lossy_utf16Encode (s : String) :
    from_utf16_lossy (utf16Encode s) = s := by
  cases s with
  | mk data =>
    simp only [from_utf16_lossy, utf16Encode]
    congr 1
    induction data with
    | nil => rfl
    | cons c cs ih => rw [List.flatMap_cons, utf16DecodeLossy_encode_append, ih]

/-! ### `safe/bstr.rs`: safe counterparts of the BSTR management functions

An allocated BSTR buffer is modelled by its contents, a `List Nat` of UTF-16
code units (the out-of-band 32-bit length is the list length).  The raw foreign
primitives (`winapi::um::oleauto::*`) are oracles: returning `none` models a
NULL/FALSE return (allocator exhaustion).  `Option` on the handle argument
models pointer nullness (`none` = `NULL`).
-/

/-- The error enumeration of `safe::bstr::SysAllocError`. -/
inductive SysAllocError
  | BStrAllocationError
  | InvalidPointerError
  | NullTerminatedStringRequiredError
  | SourceStringTooLongError
deriving DecidableEq

/-- Constant `std::u32::MAX`. -/
def UINT32_MAX : Nat := 4294967295

/-- Model of `u32::try_from(n: usize)`: succeeds exactly when `n` fits in 32 bits. -/
def u32_try_from (n : Nat) : Option Nat :=
  if n ≤ UINT32_MAX then some n else none

/-- Behaviour of the raw foreign `SysAllocString` (null-terminated variant). -/
def ForeignAllocString : Type := List Nat → Option (List Nat)

/-- The raw `SysAllocString` per the ABI contract, with memory available:
copies the source up to (not including) its first 0x0000 unit. -/
def foreignAllocStringOk : ForeignAllocString :=
  fun src => some (src.takeWhile (· != 0))

/-- Behaviour of the raw foreign `SysAllocStringLen` (explicit length). -/
def ForeignAllocStringLen : Type := List Nat → Nat → Option (List Nat)

/-- The raw `SysAllocStringLen` per the ABI contract, with memory available:
copies exactly `len` code units, embedded 0x0000 included. -/
def foreignAllocStringLenOk : ForeignAllocStringLen :=
  fun src len => some (src.take len)

/-- Model of `safe::bstr::SysAllocString`: rejects a source without an embedded
terminator before calling the foreign allocator; a NULL foreign return is the
allocation error. -/
def SysAllocString (fa : ForeignAllocString) (src : List Nat) :
    Except SysAllocError (List Nat) :=
  if !(src.any (fun x => x == 0)) then
    .error .NullTerminatedStringRequiredError
  else
    match fa src with
    | none => .error .BStrAllocationError
    | some x => .ok x

/-- Model of `safe::bstr::SysAllocStringLen`: rejects a source longer than `u32::MAX`;
NOTE (as in the source): a NULL foreign return is mapped to
`NullTerminatedStringRequiredError`, not `BStrAllocationError`. -/
def SysAllocStringLen (fa : ForeignAllocStringLen) (src : List Nat) :
    Except SysAllocError (List Nat) :=
  match u32_try_from src.length with
  | none => .error .SourceStringTooLongError
  | some len =>
    match fa src len with
    | none => .error .NullTerminatedStringRequiredError
    | some x => .ok x

/-- Model of `safe::bstr::SysStringLen`: out-of-band length; NULL handle yields 0. -/
def SysStringLen : Option (List Nat) → Nat
  | none => 0
  | some h => h.length

/-- A live BSTR handle for the reallocation functions: `addr` is the raw
pointer (to the first code unit, in bytes), `len` its out-of-band length. -/
structure BStrHandle where
  addr : Int
  len : Nat
deriving DecidableEq

/-- A borrowed source slice with its address: `addr` is the byte address of
its first element, `units` its contents. -/
structure SrcSlice where
  addr : Int
  units : List Nat
deriving DecidableEq

/-- Model of `safe::bstr::bstr_src_intersection`: byte-range overlap check between the
backing buffer of `bstr` (extended by the 4-byte length counter before the
pointer and the 2-byte 0x0000 terminator after the data) and the `src` slice.
The source returns `false` early when `src` is empty, longer than `u32::MAX`,
or `bstr` is NULL. -/
def bstr_src_intersection (bstr : Option BStrHandle) (src : SrcSlice) : Bool :=
  match bstr with
  | none => false
  | some b =>
    if src.units.length == 0 || decide (src.units.length > UINT32_MAX) then
      false
    else
      let bstr_start_ptr : Int := b.addr - 4
      let bstr_end_ptr : Int := bstr_start_ptr + 4 + (b.len : Int) * 2 + 1 * 2 - 1
      let src_start_ptr : Int := src.addr
      let src_end_ptr : Int := src_start_ptr + (src.units.length : Int) * 2 - 1
      decide ((bstr_start_ptr ≤ src_start_ptr ∧ src_start_ptr ≤ bstr_end_ptr) ∨
        (src_start_ptr ≤ bstr_start_ptr ∧ bstr_start_ptr ≤ src_end_ptr))

/-- Behaviour of the raw foreign `SysReAllocString`-style call: given the old
handle and the new contents, returns the (possibly relocated) new handle, or
`none` for a FALSE return (exhaustion). -/
def ForeignReAllocString : Type := BStrHandle → List Nat → Option BStrHandle

/-- Model of `safe::bstr::SysReAllocString`: NULL handle check, then terminator check,
then the overlap check, then the foreign call. -/
def SysReAllocString (fr : ForeignReAllocString) (bstr : Option BStrHandle)
    (src : SrcSlice) : Except SysAllocError BStrHandle :=
  match bstr with
  | none => .error .InvalidPointerError
  | some b =>
    if !(src.units.any (fun x => x == 0)) then
      .error .NullTerminatedStringRequiredError
    else if bstr_src_intersection (some b) src then
      .error .InvalidPointerError
    else
      match fr b src.units with
      | none => .error .BStrAllocationError
      | some h => .ok h

/-- Behaviour of the raw foreign `SysReAllocStringLen`-style call. -/
def ForeignReAllocStringLen : Type := BStrHandle → List Nat → Nat → Option BStrHandle

/-- Model of `safe::bstr::SysReAllocStringLen`: length-limit check, then NULL handle
check, then the overlap check, then the foreign call. -/
def SysReAllocStringLen (fr : ForeignReAllocStringLen) (bstr : Option BStrHandle)
    (src : SrcSlice) : Except SysAllocError BStrHandle :=
  match u32_try_from src.units.length with
  | none => .error .SourceStringTooLongError
  | some len =>
    match bstr with
    | none => .error .InvalidPointerError
    | some b =>
      if bstr_src_intersection (some b) src then
        .error .InvalidPointerError
      else
        match fr b src.units len with
        | none => .error .BStrAllocationError
        | some h => .ok h

/-- Closed byte intervals `[a1, b1]` and `[a2, b2]` share at least one byte. -/
def rangesIntersect (a1 b1 a2 b2 : Int) : Prop :=
  ∃ x : Int, a1 ≤ x ∧ x ≤ b1 ∧ a2 ≤ x ∧ x ≤ b2

/-! ### `auto_bstr.rs`: the owning `AutoBSTR` wrapper (content level)

Only the conversions the variant bridge uses are needed.  An `AutoBSTR` value
is the wrapped raw handle: `none` for NULL, `some contents` otherwise.
-/

/-- Model of `TryFrom<&str> for AutoBSTR`: encode the string to UTF-16 and
allocate via `SysAllocStringLen` (the foreign allocator has memory). -/
def AutoBSTR_try_from (s : String) : Except SysAllocError (List Nat) :=
  SysAllocStringLen foreignAllocStringLenOk (utf16Encode s)

/-- Model of `From<AutoBSTR> for String`: a NULL handle decodes to the empty
string, otherwise the buffer (of its out-of-band length) is decoded lossily. -/
def AutoBSTR_to_string : Option (List Nat) → String
  | none => ""
  | some h => from_utf16_lossy h

/-! ### `smart_variant.rs`: the tagged-union value bridge

Discriminant constants from `winapi::shared::wtypes::VARENUM`.
-/

def VT_EMPTY : Nat := 0
def VT_I2 : Nat := 2
def VT_I4 : Nat := 3
def VT_R4 : Nat := 4
def VT_R8 : Nat := 5
def VT_DATE : Nat := 7
def VT_BSTR : Nat := 8
def VT_DISPATCH : Nat := 9
def VT_ERROR : Nat := 10
def VT_BOOL : Nat := 11
def VT_VARIANT : Nat := 12
def VT_UNKNOWN : Nat := 13
def VT_I1 : Nat := 16
def VT_UI1 : Nat := 17
def VT_UI2 : Nat := 18
def VT_UI4 : Nat := 19
def VT_INT : Nat := 22
def VT_UINT : Nat := 23
def VT_ARRAY : Nat := 8192
def VT_BYREF : Nat := 16384

/-- The closed variant type `SmartVariant`.  Payload types: `i8`/`i16`/`i32`
as `Int`, `u8`/`u16`/`u32` as `Nat`, `f32`/`f64`/`DATE` as bit patterns
(`Nat`), pointers (`LPDISPATCH`, `LPVARIANT`, `LPUNKNOWN`, `LPSAFEARRAY`,
`PVOID`) as `Nat` addresses. -/
inductive SmartVariant
  | Empty
  | Int2 (x : Int)
  | Int4 (x : Int)
  | Real4 (x : Nat)
  | Real8 (x : Nat)
  | Date (x : Nat)
  | Text (x : String)
  | IDispatch (x : Nat)
  | ErrorCode (x : Int)
  | Bool (x : Bool)
  | Variant (x : Nat)
  | IUnknown (x : Nat)
  | Int1 (x : Int)
  | UInt1 (x : Nat)
  | UInt2 (x : Nat)
  | UInt4 (x : Nat)
  | Int (x : Int)
  | UInt (x : Nat)
  | Array (x : Nat)
  | ByRef (x : Nat)
deriving DecidableEq

/-- The active member of the raw `VARIANT`'s payload union.  The code only
ever reads the member named by the discriminant it wrote, so the union is
modelled by which member is active.  A `bstrVal` of `none` is a NULL BSTR. -/
inductive VariantData
  | empty
  | iVal (x : Int)
  | lVal (x : Int)
  | fltVal (x : Nat)
  | dblVal (x : Nat)
  | date (x : Nat)
  | bstrVal (x : Option (List Nat))
  | pdispVal (x : Nat)
  | scode (x : Int)
  | boolVal (x : Int)
  | pvarVal (x : Nat)
  | punkVal (x : Nat)
  | cVal (x : Int)
  | bVal (x : Nat)
  | uiVal (x : Nat)
  | ulVal (x : Nat)
  | intVal (x : Int)
  | uintVal (x : Nat)
  | parray (x : Nat)
  | byref (x : Nat)
deriving DecidableEq

/-- A raw `VARIANT`: discriminant field `vt` plus payload union. -/
structure VARIANT where
  vt : Nat
  data : VariantData
deriving DecidableEq

/-- Zero-initialized `VARIANT::default()` (`vt == VT_EMPTY`). -/
def VARIANT.default : VARIANT := { vt := VT_EMPTY, data := .empty }

/-- An `AutoVariant` wraps one raw `VARIANT` (the `Cell` is interior
mutability only; state is threaded explicitly here). -/
abbrev AutoVariant := VARIANT

/-- Foreign calls a variant operation can make. -/
inductive VariantAction
  | variantClear (v : VARIANT)
deriving DecidableEq

/-- Model of `AutoVariant::clear()`: when the discriminant is not `VT_EMPTY`,
the foreign `VariantClear` runs (releasing whatever the variant owns, leaving
it reinitialized) and the discriminant is set to `VT_EMPTY`; otherwise a
no-op.  Returns the new state and the foreign calls performed. -/
def AutoVariant.clear (x : AutoVariant) : AutoVariant × List VariantAction :=
  if x.vt ≠ VT_EMPTY then
    ({ vt := VT_EMPTY, data := .empty }, [.variantClear x])
  else
    (x, [])

/-- Foreign calls performed by `Drop for AutoVariant` (which is `clear`). -/
def AutoVariant.dropActions (x : AutoVariant) : List VariantAction :=
  (AutoVariant.clear x).2

/-- Payload extraction keyed by the captured discriminant, as in the `match`
of `From<AutoVariant> for SmartVariant`.  `none` models the
`panic!("Unsupported type for VARIANT")` arm; a payload member that does not
match the discriminant cannot arise from this layer's writes and is also
mapped to `none`. -/
def variantPayloadToSmart (vtype : Nat) (data : VariantData) : Option SmartVariant :=
  if vtype = VT_EMPTY then some .Empty
  else if vtype = VT_I2 then
    match data with | .iVal x => some (.Int2 x) | _ => none
  else if vtype = VT_I4 then
    match data with | .lVal x => some (.Int4 x) | _ => none
  else if vtype = VT_R4 then
    match data with | .fltVal x => some (.Real4 x) | _ => none
  else if vtype = VT_R8 then
    match data with | .dblVal x => some (.Real8 x) | _ => none
  else if vtype = VT_DATE then
    match data with | .date x => some (.Date x) | _ => none
  else if vtype = VT_BSTR then
    match data with | .bstrVal h => some (.Text (AutoBSTR_to_string h)) | _ => none
  else if vtype = VT_DISPATCH then
    match data with | .pdispVal x => some (.IDispatch x) | _ => none
  else if vtype = VT_ERROR then
    match data with | .scode x => some (.ErrorCode x) | _ => none
  else if vtype = VT_BOOL then
    match data with | .boolVal x => some (.Bool (decide (x = -1))) | _ => none
  else if vtype = VT_VARIANT then
    match data with | .pvarVal x => some (.Variant x) | _ => none
  else if vtype = VT_UNKNOWN then
    match data with | .punkVal x => some (.IUnknown x) | _ => none
  else if vtype = VT_I1 then
    match data with | .cVal x => some (.Int1 x) | _ => none
  else if vtype = VT_UI1 then
    match data with | .bVal x => some (.UInt1 x) | _ => none
  else if vtype = VT_UI2 then
    match data with | .uiVal x => some (.UInt2 x) | _ => none
  else if vtype = VT_UI4 then
    match data with | .ulVal x => some (.UInt4 x) | _ => none
  else if vtype = VT_INT then
    match data with | .intVal x => some (.Int x) | _ => none
  else if vtype = VT_UINT then
    match data with | .uintVal x => some (.UInt x) | _ => none
  else if vtype = VT_ARRAY then
    match data with | .parray x => some (.Array x) | _ => none
  else if vtype = VT_BYREF then
    match data with | .byref x => some (.ByRef x) | _ => none
  else none

/-- Model of `From<AutoVariant> for SmartVariant` with the source's mutation
visible: captures the discriminant once, resets the raw discriminant to
`VT_EMPTY` *before* extracting the payload, then maps the payload.  Returns
the converted value together with the source's post-conversion state
(`none` = the panic on an unsupported discriminant). -/
def AutoVariant.into_smart (x : AutoVariant) : Option (SmartVariant × AutoVariant) :=
  let vtype := x.vt
  let x' : AutoVariant := { x with vt := VT_EMPTY }
  (variantPayloadToSmart vtype x.data).map (fun v => (v, x'))

/-- Model of `From<VARIANT> for SmartVariant` (value level): wraps the raw
variant in an `AutoVariant` and converts. -/
def variant_into_smart (x : VARIANT) : Option SmartVariant :=
  (AutoVariant.into_smart x).map Prod.fst

/-- Model of `From<SmartVariant> for AutoVariant`: starts from the zeroed
default and sets discriminant plus the matching payload member; the `Text`
arm allocates a fresh BSTR from the UTF-16 encoding (`AutoBSTR::try_from`)
and `unwrap`s it (`none` = the panic when that allocation fails). -/
def SmartVariant.into_auto : SmartVariant → Option AutoVariant
  | .Empty => some VARIANT.default
  | .Int2 x => some { vt := VT_I2, data := .iVal x }
  | .Int4 x => some { vt := VT_I4, data := .lVal x }
  | .Real4 x => some { vt := VT_R4, data := .fltVal x }
  | .Real8 x => some { vt := VT_R8, data := .dblVal x }
  | .Date x => some { vt := VT_DATE, data := .date x }
  | .Text s =>
    match AutoBSTR_try_from s with
    | .ok h => some { vt := VT_BSTR, data := .bstrVal (some h) }
    | .error _ => none
  | .IDispatch x => some { vt := VT_DISPATCH, data := .pdispVal x }
  | .ErrorCode x => some { vt := VT_ERROR, data := .scode x }
  | .Bool b => some { vt := VT_BOOL, data := .boolVal (if b then -1 else 0) }
  | .Variant x => some { vt := VT_VARIANT, data := .pvarVal x }
  | .IUnknown x => some { vt := VT_UNKNOWN, data := .punkVal x }
  | .Int1 x => some { vt := VT_I1, data := .cVal x }
  | .UInt1 x => some { vt := VT_UI1, data := .bVal x }
  | .UInt2 x => some { vt := VT_UI2, data := .uiVal x }
  | .UInt4 x => some { vt := VT_UI4, data := .ulVal x }
  | .Int x => some { vt := VT_INT, data := .intVal x }
  | .UInt x => some { vt := VT_UINT, data := .uintVal x }
  | .Array x => some { vt := VT_ARRAY, data := .parray x }
  | .ByRef x => some { vt := VT_BYREF, data := .byref x }

/-- Model of `From<SmartVariant> for VARIANT`: converts through `AutoVariant`;
`From<AutoVariant> for VARIANT` hands out the raw value unchanged (only
disarming the wrapper's destructor), so the value is the same. -/
def SmartVariant.into_variant (x : SmartVariant) : Option VARIANT :=
  x.into_auto

/-! ### `auto_com_interface.rs` and `smart_iunknown.rs`

An `AutoCOMInterface<T>` stores one raw pointer (`Nat` address, 0 = null).
Foreign reference-count calls made by a function body are returned alongside
its result as a `List COMAction`, so that "no increment/decrement happened"
is a provable statement about the embedded body.
-/

/-- Foreign reference-count operations on the underlying COM object. -/
inductive COMAction
  | addRef (p : Nat)
  | release (p : Nat)
deriving DecidableEq

/-- The `AutoCOMInterface<T>` wrapper: one raw interface pointer. -/
structure AutoCOMInterface where
  ptr : Nat
deriving DecidableEq

/-- Model of `TryFrom<*mut T> for AutoCOMInterface<T>`: a non-null pointer is
adopted as-is (no foreign call, hence no reference-count change); null is
rejected.  The second component lists the foreign calls made (none). -/
def AutoCOMInterface.try_from (x : Nat) :
    Except String AutoCOMInterface × List COMAction :=
  if x ≠ 0 then
    (.ok { ptr := x }, [])
  else
    (.error "Can't wrap uninitialized COM interface pointer in AutoCOMInterface!", [])

/-- Model of `AutoCOMInterface::unwrap`: hands back the stored pointer and
nulls the stored pointer (disowning it). -/
def AutoCOMInterface.unwrap (a : AutoCOMInterface) : Nat × AutoCOMInterface :=
  (a.ptr, { ptr := 0 })

/-- Foreign calls performed by `Drop for AutoCOMInterface<T>`: `Release` on
the stored pointer when it is non-null, nothing otherwise. -/
def AutoCOMInterface.dropActions (a : AutoCOMInterface) : List COMAction :=
  if a.ptr ≠ 0 then [.release a.ptr] else []

/-- Model of `Default for AutoCOMInterface<T>`: the null-pointer handle. -/
def AutoCOMInterface.defaultValue : AutoCOMInterface := { ptr := 0 }

/-- Macro `winerror::SUCCEEDED`: an `HRESULT` (i32) is a success code iff it
is non-negative. -/
def SUCCEEDED (hr : Int) : Bool := decide (0 ≤ hr)

/-- Constant `winerror::E_POINTER` (0x80004003 as i32). -/
def E_POINTER : Int := -2147467261

/-- Model of `SmartIUnknown::query_interface`: the foreign `QueryInterface`
call's outcome is the pair `(hresult, pointer written through the out
parameter)`.  On a success code the pointer is wrapped via `try_from`
(null maps to `E_POINTER`); a failure code is propagated unchanged.  The
wrapper body itself makes no reference-count calls. -/
def query_interface (out : Int × Nat) :
    Except Int AutoCOMInterface × List COMAction :=
  let hresult := out.1
  let pvoid := out.2
  if SUCCEEDED hresult then
    match AutoCOMInterface.try_from pvoid with
    | (.ok x, acts) => (.ok x, acts)
    | (.error _, acts) => (.error E_POINTER, acts)
  else
    (.error hresult, [])

/-! ### `smart_idispatch.rs`: the dynamic-dispatch protocol

The foreign `IDispatch` object is an oracle: `getIDsOfNames` receives the
encoded (null-terminated UTF-16) names and the locale and yields the
`DISPID`s it writes into the out-buffer plus the `HRESULT`; `invokeRaw`
receives `(dispid, lcid, flags, argument VARIANTs)` and yields the raw
outcome of `IDispatch::Invoke`.
-/

def LOCALE_USER_DEFAULT : Int := 1024
def DISPATCH_METHOD : Nat := 1
def DISPATCH_PROPERTYGET : Nat := 2
def DISPATCH_PROPERTYPUT : Nat := 4
def DISP_E_UNKNOWNNAME : Int := -2147352570

/-- Raw outcome of a foreign `IDispatch::Invoke` call: the `HRESULT`, the
result `VARIANT`, the `EXCEPINFO.bstrDescription` string handle (`none` =
NULL) and the error-argument index out-parameter. -/
structure InvokeOutcome where
  hresult : Int
  result : VARIANT
  bstrDescription : Option (List Nat)
  argErr : Nat

/-- A foreign `IDispatch` object, as the two calls the embedding uses. -/
structure IDispatchOracle where
  getIDsOfNames : List (List Nat) → Int → List Int × Int
  invokeRaw : Int → Int → Nat → List VARIANT → InvokeOutcome

/-- Model of `SmartIDispatch::get_ids_of_names`: every name is encoded to a
null-terminated UTF-16 buffer; the `DISPID` out-buffer has one slot per name,
initialized to `-1`, and keeps `-1` wherever the foreign call writes nothing
(`takeD` pads/truncates the oracle's writes to the buffer length). -/
def get_ids_of_names (o : IDispatchOracle) (names : List String) (lcid : Int) :
    List Int × Int :=
  let cNames := names.length
  let szNames := names.map (fun s => utf16Encode s ++ [0])
  let (written, hresult) := o.getIDsOfNames szNames lcid
  (List.takeD cNames written (-1), hresult)

/-- Processing of the raw `Invoke` outcome, as in the tail of
`SmartIDispatch::invoke`: on a success code the result `VARIANT` is consumed
into a `SmartVariant` (`none` = panic on an unsupported discriminant); on a
failure code the error triple is built, decoding (and thereby freeing)
`bstrDescription`. -/
def handleInvokeOutcome (out : InvokeOutcome) :
    Option (Except (Int × String × Nat) SmartVariant) :=
  if SUCCEEDED out.hresult then
    (variant_into_smart out.result).map Except.ok
  else
    some (.error (out.hresult, AutoBSTR_to_string out.bstrDescription, out.argErr))

/-- Element-wise conversion of the parameter slice through the (panicking)
value-to-raw conversion, as `params.iter().cloned().map(|x| x.into())`
(`none` when any conversion panics). -/
def convertParams : List SmartVariant → Option (List VARIANT)
  | [] => some []
  | p :: t =>
    match SmartVariant.into_variant p with
    | none => none
    | some v =>
      match convertParams t with
      | none => none
      | some vs => some (v :: vs)

/-- Model of `SmartIDispatch::invoke`: converts every parameter
`SmartVariant` into a raw `VARIANT` (`none` = a conversion panicked),
reverses the converted sequence (`.map(|x| x.into()).rev().collect()`),
hands it to the foreign `Invoke`, and processes the outcome. -/
def invoke (o : IDispatchOracle) (member_dispid lcid : Int) (flags : Nat)
    (params : List SmartVariant) :
    Option (Except (Int × String × Nat) SmartVariant) :=
  match convertParams params with
  | none => none
  | some converted =>
    let rev_params := converted.reverse
    handleInvokeOutcome (o.invokeRaw member_dispid lcid flags rev_params)

/-- Model of `SmartIDispatch::call`.  The source matches on
`(ids, S_OK) => ... invoke ...` and `(_, e) => Err((e, "get_ids_of_names()", 0))`,
but `S_OK` is not in scope as a constant in `smart_idispatch.rs`, so Rust
treats it as a fresh binding: the first arm matches EVERY hresult and the
error arm is unreachable.  The embedding therefore always invokes. -/
def call (o : IDispatchOracle) (method : String) (params : List SmartVariant) :
    Option (Except (Int × String × Nat) SmartVariant) :=
  match get_ids_of_names o [method] LOCALE_USER_DEFAULT with
  | (ids, _s_ok) => invoke o ids.headI LOCALE_USER_DEFAULT DISPATCH_METHOD params

/-- Model of `SmartIDispatch::get`; same unreachable error arm as `call`. -/
def get (o : IDispatchOracle) (property : String) :
    Option (Except (Int × String × Nat) SmartVariant) :=
  match get_ids_of_names o [property] LOCALE_USER_DEFAULT with
  | (ids, _s_ok) => invoke o ids.headI LOCALE_USER_DEFAULT DISPATCH_PROPERTYGET []

/-- Model of `SmartIDispatch::put`; same unreachable error arm as `call`. -/
def put (o : IDispatchOracle) (property : String) (value : SmartVariant) :
    Option (Except (Int × String × Nat) SmartVariant) :=
  match get_ids_of_names o [property] LOCALE_USER_DEFAULT with
  | (ids, _s_ok) => invoke o ids.headI LOCALE_USER_DEFAULT DISPATCH_PROPERTYPUT [value]

/-! ### Auxiliary lemmas -/

/-- Successful parameter conversion distributes over list append. -/
theorem convertParams_append (l1 l2 : List SmartVariant) (r1 r2 : List VARIANT)
    (h1 : convertParams l1 = some r1) (h2 : convertParams l2 = some r2) :
    convertParams (l1 ++ l2) = some (r1 ++ r2) := by
  induction l1 generalizing r1 with
  | nil =>
    simp only [convertParams] at h1
    cases h1
    simpa using h2
  | cons p t ih =>
    simp only [convertParams] at h1
    simp only [List.cons_append, convertParams]
    cases hv : SmartVariant.into_variant p <;> rw [hv] at h1
    · exact Option.noConfusion h1
    · cases hct : convertParams t <;> rw [hct] at h1
      · exact Option.noConfusion h1
      · cases h1
        simp only [List.append_eq, ih _ hct, List.cons_append]

/-- Successful parameter conversion of a reversed list yields the reversed
conversion results. -/
theorem convertParams_reverse (l : List SmartVariant) (r : List VARIANT)
    (h : convertParams l = some r) :
    convertParams l.reverse = some r.reverse := by
  induction l generalizing r with
  | nil =>
    simp only [convertParams] at h
    cases h
    rfl
  | cons p t ih =>
    simp only [convertParams] at h
    cases hv : SmartVariant.into_variant p <;> rw [hv] at h
    · exact Option.noConfusion h
    · cases hct : convertParams t <;> rw [hct] at h
      · exact Option.noConfusion h
      · cases h
        rw [List.reverse_cons, List.reverse_cons]
        exact convertParams_append _ _ _ _ (ih _ hct)
          (by simp only [convertParams, hv])

/-- A source longer than the 32-bit limit is rejected by `SysAllocStringLen`
regardless of the allocator's behaviour. -/
theorem SysAllocStringLen_too_long (fa : ForeignAllocStringLen) (src : List Nat)
    (h : UINT32_MAX < src.length) :
    SysAllocStringLen fa src = .error .SourceStringTooLongError := by
  unfold SysAllocStringLen u32_try_from
  rw [if_neg (by omega)]

/-! ### Claim theorems -/

/-- C1 (code bug witness): a test-double `IDispatch` whose name resolution
always fails with `DISP_E_UNKNOWNNAME` (writing nothing into the `DISPID`
out-buffer, so every slot stays `-1`) and whose `Invoke` reports success
with an `Int4 42` result. -/
def failingNamesOracle : IDispatchOracle where
  getIDsOfNames := fun _ _ => ([], DISP_E_UNKNOWNNAME)
  invokeRaw := fun _ _ _ _ =>
    { hresult := 0, result := { vt := VT_I4, data := .lVal 42 },
      bstrDescription := none, argErr := 0 }

/-- C1: contrary to the claim, when name resolution fails with a non-success
status, `call`, `get` and `put` do NOT return
`Err((status, "get_ids_of_names()", 0))`: the `S_OK` in the source's match is
an unbound identifier acting as a binding pattern, so the success arm matches
every status and each function proceeds to `invoke` (here: the foreign invoke
result `Int4 42`, with the failed `DISPID` `-1`). -/
theorem claim_C1 :
    call failingNamesOracle "Count" [] = some (.ok (.Int4 42)) ∧
    get failingNamesOracle "Count" = some (.ok (.Int4 42)) ∧
    put failingNamesOracle "Count" .Empty = some (.ok (.Int4 42)) ∧
    (some (Except.ok (SmartVariant.Int4 42)) ≠
      (some (.error (DISP_E_UNKNOWNNAME, "get_ids_of_names()", 0)) :
        Option (Except (Int × String × Nat) SmartVariant))) := by
  refine ⟨rfl, rfl, rfl, fun hc => Except.noConfusion (Option.some.inj hc)⟩

/-- C2: `invoke` hands the foreign `Invoke` exactly the reversal of the
converted parameter sequence (equivalently, the conversion of the reversed
caller-supplied sequence), and otherwise only processes the outcome. -/
theorem claim_C2 (o : IDispatchOracle) (d l : Int) (fl : Nat)
    (params : List SmartVariant) (converted : List VARIANT)
    (h : convertParams params = some converted) :
    invoke o d l fl params =
      handleInvokeOutcome (o.invokeRaw d l fl (List.reverse converted)) ∧
    convertParams (List.reverse params) = some (List.reverse converted) := by
  constructor
  · unfold invoke
    rw [h]
  · exact convertParams_reverse params converted h

/-- C2 witness: at two concrete parameters the foreign call receives them in
reverse order. -/
theorem claim_C2_witness :
    invoke failingNamesOracle 0 0 0 [.Int4 1, .Bool true] =
      handleInvokeOutcome (failingNamesOracle.invokeRaw 0 0 0
        (List.reverse [{ vt := VT_I4, data := .lVal 1 },
          { vt := VT_BOOL, data := .boolVal (-1) }])) ∧
    convertParams (List.reverse [.Int4 1, .Bool true]) =
      some (List.reverse [{ vt := VT_I4, data := .lVal 1 },
        { vt := VT_BOOL, data := .boolVal (-1) }]) :=
  claim_C2 failingNamesOracle 0 0 0 [.Int4 1, .Bool true]
    [{ vt := VT_I4, data := .lVal 1 }, { vt := VT_BOOL, data := .boolVal (-1) }] rfl

/-- Side condition for the round trip: the `Text` arm's BSTR allocation can
only be completed when the UTF-16 encoding fits the 32-bit length limit (the
source `unwrap`s the allocation result and panics otherwise); every other
variant is unconditional. -/
def textFits : SmartVariant → Prop
  | .Text s => (utf16Encode s).length ≤ UINT32_MAX
  | _ => True

/-- C3 (amended): the round trip `SmartVariant → AutoVariant/VARIANT →
SmartVariant` reproduces a value equal to the original for every
non-reference-carrying variant — for `Text` provided its UTF-16 encoding
fits the 32-bit BSTR length limit — and a variant holding the same pointer
for every reference-carrying variant. -/
theorem claim_C3 (v : SmartVariant) (h : textFits v) :
    (SmartVariant.into_auto v).bind variant_into_smart = some v := by
  cases v with
  | Empty => rfl
  | Int2 x => rfl
  | Int4 x => rfl
  | Real4 x => rfl
  | Real8 x => rfl
  | Date x => rfl
  | Text s =>
    have hfit : (utf16Encode s).length ≤ UINT32_MAX := h
    have halloc : AutoBSTR_try_from s = .ok (utf16Encode s) := by
      unfold AutoBSTR_try_from SysAllocStringLen u32_try_from foreignAllocStringLenOk
      rw [if_pos hfit]
      simp [List.take_length]
    have hmatch : SmartVariant.into_auto (.Text s) =
        match AutoBSTR_try_from s with
        | .ok h => some { vt := VT_BSTR, data := .bstrVal (some h) }
        | .error _ => none := rfl
    have hforward : SmartVariant.into_auto (.Text s) =
        some { vt := VT_BSTR, data := .bstrVal (some (utf16Encode s)) } := by
      rw [hmatch, halloc]
    rw [hforward]
    have hback : variant_into_smart
        { vt := VT_BSTR, data := .bstrVal (some (utf16Encode s)) } =
        some (.Text (from_utf16_lossy (utf16Encode s))) := rfl
    show variant_into_smart
        { vt := VT_BSTR, data := .bstrVal (some (utf16Encode s)) } =
      some (.Text s)
    rw [hback, from_utf16_lossy_utf16Encode]
  | IDispatch x => rfl
  | ErrorCode x => rfl
  | Bool b => cases b <;> rfl
  | Variant x => rfl
  | IUnknown x => rfl
  | Int1 x => rfl
  | UInt1 x => rfl
  | UInt2 x => rfl
  | UInt4 x => rfl
  | Int x => rfl
  | UInt x => rfl
  | Array x => rfl
  | ByRef x => rfl

/-- C3 witness: the round trip at a small text and at a pointer variant. -/
theorem claim_C3_witness :
    (SmartVariant.into_auto (.Text "Hi")).bind variant_into_smart =
      some (.Text "Hi") ∧
    (SmartVariant.into_auto (.IDispatch 3)).bind variant_into_smart =
      some (.IDispatch 3) :=
  ⟨claim_C3 (.Text "Hi")
      (show (utf16Encode "Hi").length ≤ UINT32_MAX by decide),
    claim_C3 (.IDispatch 3) trivial⟩

/-- Helper for the C3 counterexample: `n` repetitions of `'a'` encode to
exactly `n` UTF-16 code units. -/
theorem length_flatMap_encode_replicate (n : Nat) :
    ((List.replicate n 'a').flatMap encodeCharUtf16).length = n := by
  induction n with
  | zero => rfl
  | succ k ih =>
    rw [List.replicate_succ, List.flatMap_cons, List.length_append, ih]
    have h1 : (encodeCharUtf16 'a').length = 1 := rfl
    omega

/-- When the BSTR allocation for a text fails, the conversion to the raw
variant panics (is `none`). -/
theorem into_auto_text_err (s : String) (e : SysAllocError)
    (h : AutoBSTR_try_from s = .error e) :
    SmartVariant.into_auto (.Text s) = none := by
  have hmatch : SmartVariant.into_auto (.Text s) =
      match AutoBSTR_try_from s with
      | .ok x => some { vt := VT_BSTR, data := .bstrVal (some x) }
      | .error _ => none := rfl
  rw [hmatch, h]

/-- A text whose UTF-16 encoding exceeds `u32::MAX` code units. -/
def bigText : String := String.mk (List.replicate 4294967296 'a')

/-- C3 counterexample: at `Text bigText` (2^32 characters) the claimed round
trip does not yield a value equal to the original - the conversion to the
raw variant panics in the `unwrap` of the BSTR allocation
(`SourceStringTooLongError`), modelled as `none`. -/
theorem claim_C3_counterexample :
    (SmartVariant.into_auto (.Text bigText)).bind variant_into_smart ≠
      some (.Text bigText) := by
  have hlen : (utf16Encode bigText).length = 4294967296 :=
    length_flatMap_encode_replicate 4294967296
  have herr : AutoBSTR_try_from bigText = .error .SourceStringTooLongError := by
    unfold AutoBSTR_try_from
    exact SysAllocStringLen_too_long _ _ (by rw [hlen]; norm_num [UINT32_MAX])
  have hnone : SmartVariant.into_auto (.Text bigText) = none :=
    into_auto_text_err bigText _ herr
  rw [hnone]
  simp

/-- C4: `SysAllocString` fails with `NullTerminatedStringRequiredError`
exactly when the source contains no 0x0000 unit (for every allocator
behaviour), and the zero-length source (a lone terminator) yields a valid
zero-length handle. -/
theorem claim_C4 :
    (∀ (fa : ForeignAllocString) (src : List Nat),
      SysAllocString fa src = .error .NullTerminatedStringRequiredError ↔
        ¬ (0 ∈ src)) ∧
    SysAllocString foreignAllocStringOk [0] = .ok [] ∧
    SysStringLen (some []) = 0 := by
  refine ⟨?_, rfl, rfl⟩
  intro fa src
  by_cases h : src.any (fun x => x == 0)
  · have hmem : (0 : Nat) ∈ src := by
      rcases List.any_eq_true.mp h with ⟨x, hx, hx0⟩
      have : x = 0 := by simpa using hx0
      exact this ▸ hx
    constructor
    · intro hres
      exfalso
      unfold SysAllocString at hres
      rw [h] at hres
      cases hfa : fa src <;> rw [hfa] at hres <;> simp at hres
    · intro hmem'
      exact absurd hmem hmem'
  · rw [Bool.not_eq_true] at h
    have hmem : ¬ (0 : Nat) ∈ src := by
      intro h0
      have : src.any (fun x => x == 0) = true :=
        List.any_eq_true.mpr ⟨0, h0, by simp⟩
      rw [h] at this
      exact Bool.false_ne_true this
    constructor
    · intro _
      exact hmem
    · intro _
      unfold SysAllocString
      rw [h]
      rfl

/-- C5: contrary to the claim (and to the function's own documentation),
`SysAllocStringLen` maps a NULL return from the foreign allocator
(exhaustion) to `NullTerminatedStringRequiredError`, not
`BStrAllocationError`; the over-length case does return
`SourceStringTooLongError`. -/
theorem claim_C5 :
    SysAllocStringLen (fun _ _ => none) [] =
      .error .NullTerminatedStringRequiredError ∧
    SysAllocError.NullTerminatedStringRequiredError ≠
      SysAllocError.BStrAllocationError ∧
    SysAllocStringLen (fun _ _ => none) (List.replicate 4294967296 0) =
      .error .SourceStringTooLongError := by
  refine ⟨rfl, by decide, ?_⟩
  exact SysAllocStringLen_too_long _ _
    (by rw [List.length_replicate]; norm_num [UINT32_MAX])

/-- C6: both reallocation functions reject a NULL handle with
`InvalidPointerError`; the overlap check flags exactly the source slices
whose byte range shares at least one byte with the handle's backing buffer
extended by its 4-byte length counter and 2-byte terminator, and a flagged
overlap makes both functions return `InvalidPointerError` while fully
disjoint ranges are never rejected by the overlap check. -/
theorem claim_C6 (fr : ForeignReAllocString) (frL : ForeignReAllocStringLen)
    (b : BStrHandle) (src : SrcSlice)
    (hlen : 0 < src.units.length) (hmax : src.units.length ≤ UINT32_MAX)
    (hterm : src.units.any (fun x => x == 0) = true) :
    (SysReAllocString fr none src = .error .InvalidPointerError) ∧
    (SysReAllocStringLen frL none src = .error .InvalidPointerError) ∧
    (bstr_src_intersection (some b) src = true ↔
      rangesIntersect (b.addr - 4) (b.addr + 2 * (b.len : Int) + 1)
        src.addr (src.addr + 2 * (src.units.length : Int) - 1)) ∧
    (bstr_src_intersection (some b) src = true →
      SysReAllocString fr (some b) src = .error .InvalidPointerError ∧
      SysReAllocStringLen frL (some b) src = .error .InvalidPointerError) ∧
    (bstr_src_intersection (some b) src = false →
      SysReAllocString fr (some b) src ≠ .error .InvalidPointerError ∧
      SysReAllocStringLen frL (some b) src ≠ .error .InvalidPointerError) := by
  have hguard : (src.units.length == 0 || decide (src.units.length > UINT32_MAX)) = false := by
    simp only [Bool.or_eq_false_iff, beq_eq_false_iff_ne, decide_eq_false_iff_not]
    omega
  have hinter : bstr_src_intersection (some b) src =
      decide ((b.addr - 4 ≤ src.addr ∧
          src.addr ≤ b.addr - 4 + 4 + (b.len : Int) * 2 + 1 * 2 - 1) ∨
        (src.addr ≤ b.addr - 4 ∧
          b.addr - 4 ≤ src.addr + (src.units.length : Int) * 2 - 1)) := by
    unfold bstr_src_intersection
    rw [hguard]
    simp
  refine ⟨?_, ?_, ?_, ?_, ?_⟩
  · rfl
  · unfold SysReAllocStringLen u32_try_from
    rw [if_pos hmax]
  · rw [hinter]
    simp only [decide_eq_true_eq]
    constructor
    · rintro (⟨h1, h2⟩ | ⟨h1, h2⟩)
      · exact ⟨src.addr, by omega, by omega, by omega, by omega⟩
      · exact ⟨b.addr - 4, by omega, by omega, by omega, by omega⟩
    · rintro ⟨x, hx1, hx2, hx3, hx4⟩
      omega
  · intro hov
    constructor
    · simp [SysReAllocString, hterm, hov]
    · simp [SysReAllocStringLen, u32_try_from, hmax, hov]
  · intro hov
    constructor
    · cases hfr : fr b src.units <;>
        simp [SysReAllocString, hterm, hov, hfr]
    · cases hfr : frL b src.units src.units.length <;>
        simp [SysReAllocStringLen, u32_try_from, hmax, hov, hfr]

/-- C6 witness: a handle at byte address 100 of length 3 (extended buffer
bytes 96..107) is rejected against an overlapping one-unit source at byte
address 100, by both functions. -/
theorem claim_C6_witness :
    bstr_src_intersection (some ⟨100, 3⟩) ⟨100, [0]⟩ = true ∧
    SysReAllocString (fun _ _ => none) (some ⟨100, 3⟩) ⟨100, [0]⟩ =
      .error .InvalidPointerError ∧
    SysReAllocStringLen (fun _ _ _ => none) (some ⟨100, 3⟩) ⟨100, [0]⟩ =
      .error .InvalidPointerError := by
  have h := claim_C6 (fun _ _ => none) (fun _ _ _ => none) ⟨100, 3⟩ ⟨100, [0]⟩
    (by decide) (by decide) (by decide)
  have hov : bstr_src_intersection (some ⟨100, 3⟩) ⟨100, [0]⟩ = true := by decide
  exact ⟨hov, (h.2.2.2.1 hov).1, (h.2.2.2.1 hov).2⟩

/-- C7: wrapping rejects exactly the null pointer and makes no foreign
reference-count call; `unwrap` returns the wrapped pointer and nulls the
stored pointer, so the subsequent drop performs no `Release`. -/
theorem claim_C7 (p : Nat) (hp : p ≠ 0) :
    AutoCOMInterface.try_from p = (.ok { ptr := p }, []) ∧
    (∃ e, AutoCOMInterface.try_from 0 = (.error e, [])) ∧
    AutoCOMInterface.unwrap { ptr := p } = (p, { ptr := 0 }) ∧
    AutoCOMInterface.dropActions (AutoCOMInterface.unwrap { ptr := p }).2 = [] := by
  refine ⟨?_, ⟨_, rfl⟩, rfl, rfl⟩
  simp [AutoCOMInterface.try_from, hp]

/-- C7 witness at pointer 1. -/
theorem claim_C7_witness :
    AutoCOMInterface.try_from 1 = (.ok { ptr := 1 }, []) ∧
    (∃ e, AutoCOMInterface.try_from 0 = (.error e, [])) ∧
    AutoCOMInterface.unwrap { ptr := 1 } = (1, { ptr := 0 }) ∧
    AutoCOMInterface.dropActions (AutoCOMInterface.unwrap { ptr := 1 }).2 = [] :=
  claim_C7 1 (by decide)

/-- C8: `query_interface` propagates a foreign failure code unchanged; a
success code with a null out-pointer becomes `E_POINTER` (a failure code, so
distinct from the success code the foreign call returned); a success code
with a non-null pointer is wrapped directly, and the wrapper body makes no
reference-count call in any case. -/
theorem claim_C8 (hr : Int) (p : Nat) :
    (SUCCEEDED hr = false → query_interface (hr, p) = (.error hr, [])) ∧
    (SUCCEEDED hr = true → p = 0 →
      query_interface (hr, p) = (.error E_POINTER, []) ∧
      SUCCEEDED E_POINTER = false ∧ E_POINTER ≠ hr) ∧
    (SUCCEEDED hr = true → p ≠ 0 →
      query_interface (hr, p) = (.ok { ptr := p }, [])) := by
  refine ⟨?_, ?_, ?_⟩
  · intro h
    simp [query_interface, h]
  · intro h hp
    subst hp
    refine ⟨?_, rfl, ?_⟩
    · simp [query_interface, h, AutoCOMInterface.try_from]
    · have hle : (0 : Int) ≤ hr := by
        simpa [SUCCEEDED] using h
      intro heq
      rw [← heq] at hle
      norm_num [E_POINTER] at hle
  · intro h hp
    simp [query_interface, h, AutoCOMInterface.try_from, hp]

/-- C8 witness at a failure code, a success code with a null pointer, and a
success code with pointer 5. -/
theorem claim_C8_witness :
    query_interface (-1, 7) = (.error (-1), []) ∧
    query_interface (0, 0) = (.error E_POINTER, []) ∧
    query_interface (0, 5) = (.ok { ptr := 5 }, []) :=
  ⟨(claim_C8 (-1) 7).1 (by decide),
    ((claim_C8 0 0).2.1 (by decide) rfl).1,
    (claim_C8 0 5).2.2 (by decide) (by decide)⟩

/-- C9: whenever the consuming conversion of an `AutoVariant` to a
`SmartVariant` succeeds, the source's discriminant has been reset to
`VT_EMPTY` (payload member untouched), so the source's destructor
(`clear`) is a no-op and releases nothing. -/
theorem claim_C9 (x : AutoVariant) (v : SmartVariant) (x' : AutoVariant)
    (h : AutoVariant.into_smart x = some (v, x')) :
    x'.vt = VT_EMPTY ∧ x'.data = x.data ∧
    AutoVariant.clear x' = (x', []) ∧
    AutoVariant.dropActions x' = [] := by
  simp only [AutoVariant.into_smart] at h
  cases hp : variantPayloadToSmart x.vt x.data with
  | none => rw [hp] at h; simp at h
  | some w =>
    rw [hp] at h
    simp only [Option.map_some'] at h
    have hx' : x' = { x with vt := VT_EMPTY } := by
      cases h; rfl
    subst hx'
    refine ⟨rfl, rfl, ?_, ?_⟩
    · simp [AutoVariant.clear]
    · simp [AutoVariant.dropActions, AutoVariant.clear]

/-- C9 witness at a `VT_I4` variant holding 7. -/
theorem claim_C9_witness :
    ({ vt := VT_EMPTY, data := .lVal 7 } : AutoVariant).vt = VT_EMPTY ∧
    ({ vt := VT_EMPTY, data := .lVal 7 } : AutoVariant).data =
      ({ vt := VT_I4, data := .lVal 7 } : AutoVariant).data ∧
    AutoVariant.clear { vt := VT_EMPTY, data := .lVal 7 } =
      ({ vt := VT_EMPTY, data := .lVal 7 }, []) ∧
    AutoVariant.dropActions { vt := VT_EMPTY, data := .lVal 7 } = [] :=
  claim_C9 { vt := VT_I4, data := .lVal 7 } (.Int4 7)
    { vt := VT_EMPTY, data := .lVal 7 } rfl

/-- C10: the `Default` instance constructs the null-pointer handle even
though `try_from` rejects null, and dropping any handle whose stored pointer
is null performs no `Release`. -/
theorem claim_C10 :
    AutoCOMInterface.defaultValue.ptr = 0 ∧
    AutoCOMInterface.dropActions AutoCOMInterface.defaultValue = [] ∧
    (∀ a : AutoCOMInterface, a.ptr = 0 → AutoCOMInterface.dropActions a = []) ∧
    (∃ e, AutoCOMInterface.try_from 0 = (.error e, [])) := by
  refine ⟨rfl, rfl, ?_, ⟨_, rfl⟩⟩
  intro a h
  simp [AutoCOMInterface.dropActions, h]

/-- C10 witness: the universally quantified conjunct applied to the default
handle itself. -/
theorem claim_C10_witness :
    AutoCOMInterface.dropActions { ptr := 0 } = [] :=
  claim_C10.2.2.1 { ptr := 0 } rfl

end RustyWinapi
